import Mathlib

/-!
Shallow embedding of the kinematic simulation and tile-collision core of the
`speech` repository (files `src/game/level.rs` and `src/game/entities/player.rs`).

Numeric conventions: the Rust code computes with `f32`; the embedding uses `ℚ`
so that every step is exact and executable.  Tile/pixel constants and all the
inputs used in the theorems below are exactly representable in `f32`, and no
claim under consideration depends on `f32` rounding.  The single inexact
operation, `f32::sqrt` inside the top-down diagonal normalization, is treated
in two faithful ways: the position pipeline takes the square-root function as
an explicit parameter `sq` (every theorem about the pipeline either quantifies
over `sq` or concerns inputs where the diagonal branch is not taken), and the
diagonal-speed claim itself is settled on a real-valued copy of the velocity
derivation that uses `Real.sqrt` exactly.
-/

/-- Mirrors `TileType` from `src/game/level.rs`. -/
inductive TileType where
  | Empty
  | Platform
  | Wall
  | Evidence
deriving DecidableEq, Repr

/-- Mirrors `Perspective` from `src/game/level.rs`. -/
inductive Perspective where
  | SideScrolling
  | TopDown
deriving DecidableEq, Repr

/-- Mirrors `struct Level` from `src/game/level.rs`.  `tiles` is the row-major
flat vector; `spawn_point` is a pair of world coordinates. -/
structure Level where
  width : Nat
  height : Nat
  tiles : List TileType
  perspective : Perspective
  spawn_point : ℚ × ℚ
  evidence_locations : List (Nat × Nat)
deriving DecidableEq, Repr

namespace Level

/-- Mirrors `Level::new`. -/
def new (width height : Nat) (perspective : Perspective) : Level :=
  { width := width
    height := height
    tiles := List.replicate (width * height) TileType.Empty
    perspective := perspective
    spawn_point := (0, 0)
    evidence_locations := [] }

/-- Mirrors `Level::get_tile`: in-range lookup into the row-major vector,
`none` out of range. -/
def get_tile (lv : Level) (x y : Nat) : Option TileType :=
  if x < lv.width ∧ y < lv.height then lv.tiles[y * lv.width + x]? else none

/-- Mirrors `Level::set_tile`: writes the row-major cell, no-op out of range. -/
def set_tile (lv : Level) (x y : Nat) (tile_type : TileType) : Level :=
  if x < lv.width ∧ y < lv.height then
    { lv with tiles := lv.tiles.set (y * lv.width + x) tile_type }
  else lv

/-- Mirrors `Level::set_spawn_point`. -/
def set_spawn_point (lv : Level) (x y : ℚ) : Level :=
  { lv with spawn_point := (x, y) }

/-- Mirrors `Level::add_evidence`: pushes the coordinate unconditionally, then
calls `set_tile` (which is a no-op out of range). -/
def add_evidence (lv : Level) (x y : Nat) : Level :=
  let lv2 := { lv with evidence_locations := lv.evidence_locations ++ [(x, y)] }
  lv2.set_tile x y TileType.Evidence

/-- One character of the `Level::from_string` match (the loop body of the
nested `for` loops): `y` is the row index, `x` the column index. -/
def processCell (lv : Level) (y x : Nat) (c : Char) : Level :=
  match c with
  | '#' => lv.set_tile x y TileType.Platform
  | 'W' => lv.set_tile x y TileType.Wall
  | 'E' => lv.add_evidence x y
  | 'S' => (lv.set_spawn_point ((x : ℚ) * 32) ((y : ℚ) * 32)).set_tile x y TileType.Empty
  | _ => lv.set_tile x y TileType.Empty

/-- The nested enumerate loops of `Level::from_string` over an explicit list
of rows. -/
def from_lines (lines : List (List Char)) (width height : Nat)
    (perspective : Perspective) : Level :=
  lines.enum.foldl
    (fun lv yl => yl.2.enum.foldl (fun lv2 xc => processCell lv2 yl.1 xc.1 xc.2) lv)
    (Level.new width height perspective)

/-- Whitespace predicate used by the embedding of `str::trim` (the grid
characters of this repository only involve ASCII whitespace; Rust also trims
other Unicode whitespace, which no input of interest contains). -/
def isWs (c : Char) : Bool :=
  c = ' ' ∨ c = '\t' ∨ c = '\n' ∨ c = '\r'

/-- Embedding of `str::trim` on the character list. -/
def rustTrim (s : List Char) : List Char :=
  ((s.dropWhile isWs).reverse.dropWhile isWs).reverse

/-- Embedding of `str::lines` on a trimmed character list: the empty string
has no lines; otherwise split on the newline character, dropping one trailing
carriage return per line. -/
def rustLines (s : List Char) : List (List Char) :=
  if s = [] then []
  else (s.splitOn '\n').map (fun l => if l.getLast? = some '\r' then l.dropLast else l)

/-- Mirrors `Level::from_string`.  The source indexes `lines[0]`
unconditionally, which panics when the trimmed input has no lines; the
embedding returns `none` exactly for that panic. -/
def from_string (data : String) (perspective : Perspective) : Option Level :=
  let lines := rustLines (rustTrim data.toList)
  match lines with
  | [] => none
  | l0 :: rest => some (from_lines (l0 :: rest) l0.length (l0 :: rest).length perspective)

end Level

/-- `ACCELERATION` from `src/game/entities/player.rs`. -/
def ACCELERATION : ℚ := 1000

/-- `MAX_VELOCITY` from `src/game/entities/player.rs`. -/
def MAX_VELOCITY : ℚ := 500

/-- `FRICTION` from `src/game/entities/player.rs`. -/
def FRICTION : ℚ := 800

/-- `JUMP_VELOCITY` from `src/game/entities/player.rs`. -/
def JUMP_VELOCITY : ℚ := 500

/-- `GRAVITY` from `src/game/entities/player.rs`. -/
def GRAVITY : ℚ := 1500

/-- `TILE_SIZE` from `src/game/entities/player.rs`. -/
def TILE_SIZE : ℚ := 32

/-- Mirrors `struct Player` from `src/game/entities/player.rs`. -/
structure Player where
  x : ℚ
  y : ℚ
  velocity_x : ℚ
  velocity_y : ℚ
  moving_left : Bool
  moving_right : Bool
  moving_up : Bool
  moving_down : Bool
  is_jumping : Bool
  is_grounded : Bool
  width : ℚ
  height : ℚ
  facing_right : Bool
  animation_frame : Nat
  animation_timer : ℚ
  evidence_collected : List String
deriving DecidableEq, Repr

namespace Player

/-- Mirrors `Player::new`. -/
def new (x y : ℚ) : Player :=
  { x := x
    y := y
    velocity_x := 0
    velocity_y := 0
    moving_left := false
    moving_right := false
    moving_up := false
    moving_down := false
    is_jumping := false
    is_grounded := true
    width := 24
    height := 48
    facing_right := true
    animation_frame := 0
    animation_timer := 0
    evidence_collected := [] }

/-- Mirrors `Player::move_left`. -/
def move_left (p : Player) (pressed : Bool) : Player :=
  { p with moving_left := pressed
           facing_right := if pressed then false else p.facing_right }

/-- Mirrors `Player::move_right`. -/
def move_right (p : Player) (pressed : Bool) : Player :=
  { p with moving_right := pressed
           facing_right := if pressed then true else p.facing_right }

/-- Mirrors `Player::move_up`. -/
def move_up (p : Player) (pressed : Bool) : Player :=
  { p with moving_up := pressed }

/-- Mirrors `Player::move_down`. -/
def move_down (p : Player) (pressed : Bool) : Player :=
  { p with moving_down := pressed }

/-- Mirrors `Player::jump`. -/
def jump (p : Player) : Player :=
  if p.is_grounded then
    { p with velocity_y := -JUMP_VELOCITY, is_jumping := true, is_grounded := false }
  else p

/-- `(v / TILE_SIZE).floor() as usize`: Rust float-to-`usize` casts saturate,
so negative floors become `0` (`Int.toNat`). -/
def tileIndex (v : ℚ) : Nat :=
  (⌊v / TILE_SIZE⌋).toNat

/-- The inclusive tile rectangle scanned by the nested
`for y in tile_top..=tile_bottom { for x in tile_left..=tile_right { .. } }`
loops, in exactly that order ((x, y) pairs, row-major). -/
def cellsBetween (txl txr tyt tyb : Nat) : List (Nat × Nat) :=
  (List.range' tyt (tyb + 1 - tyt)).flatMap
    (fun y => (List.range' txl (txr + 1 - txl)).map (fun x => (x, y)))

/-- The tile footprint of the player's current bounding box, as scanned by the
collision and evidence loops. -/
def footprintCells (p : Player) : List (Nat × Nat) :=
  cellsBetween (tileIndex (p.x - p.width / 2)) (tileIndex (p.x + p.width / 2))
    (tileIndex (p.y - p.height / 2)) (tileIndex (p.y + p.height / 2))

/-- One iteration of the horizontal collision loop of
`Player::handle_collisions`.  `left`/`right` are the bounding-box edges
computed before the loop (the source does not recompute them inside the
loop), while velocity and position are read and written live. -/
def collideXCell (lv : Level) (left right : ℚ) (s : Player × Bool)
    (c : Nat × Nat) : Player × Bool :=
  match lv.get_tile c.1 c.2 with
  | some TileType.Platform | some TileType.Wall =>
    if s.1.velocity_x > 0 ∧ right > (c.1 : ℚ) * TILE_SIZE then
      ({ s.1 with x := (c.1 : ℚ) * TILE_SIZE - s.1.width / 2, velocity_x := 0 }, true)
    else if s.1.velocity_x < 0 ∧ left < ((c.1 : ℚ) + 1) * TILE_SIZE then
      ({ s.1 with x := ((c.1 : ℚ) + 1) * TILE_SIZE + s.1.width / 2, velocity_x := 0 }, true)
    else s
  | _ => s

/-- The horizontal collision pass of `Player::handle_collisions` (bounding box,
tile footprint, scan).  The `Bool` is the `collision_x` flag. -/
def collideX (lv : Level) (p : Player) : Player × Bool :=
  (footprintCells p).foldl
    (collideXCell lv (p.x - p.width / 2) (p.x + p.width / 2)) (p, false)

/-- One iteration of the vertical collision loop of
`Player::handle_collisions`.  `top`/`bottom` are the pre-loop bounding-box
edges. -/
def collideYCell (lv : Level) (top bottom : ℚ) (s : Player × Bool)
    (c : Nat × Nat) : Player × Bool :=
  match lv.get_tile c.1 c.2 with
  | some TileType.Platform | some TileType.Wall =>
    if s.1.velocity_y > 0 ∧ bottom > (c.2 : ℚ) * TILE_SIZE then
      ({ s.1 with y := (c.2 : ℚ) * TILE_SIZE - s.1.height / 2, velocity_y := 0,
                  is_grounded := true, is_jumping := false }, true)
    else if s.1.velocity_y < 0 ∧ top < ((c.2 : ℚ) + 1) * TILE_SIZE then
      ({ s.1 with y := ((c.2 : ℚ) + 1) * TILE_SIZE + s.1.height / 2, velocity_y := 0 }, true)
    else s
  | _ => s

/-- The vertical collision pass of `Player::handle_collisions`: recomputed
bounding box, `is_grounded` reset to `false` before the scan, then the scan.
The `Bool` is the `collision_y` flag. -/
def collideY (lv : Level) (p : Player) : Player × Bool :=
  (footprintCells p).foldl
    (collideYCell lv (p.y - p.height / 2) (p.y + p.height / 2))
    ({ p with is_grounded := false }, false)

/-- The horizontal world-boundary clamp of `Player::handle_collisions`
(source lines 299-305). -/
def clampX (lv : Level) (p : Player) : Player :=
  if p.x < p.width / 2 then
    { p with x := p.width / 2, velocity_x := 0 }
  else if p.x > (lv.width : ℚ) * TILE_SIZE - p.width / 2 then
    { p with x := (lv.width : ℚ) * TILE_SIZE - p.width / 2, velocity_x := 0 }
  else p

/-- The vertical world-boundary clamp of `Player::handle_collisions`
(source lines 307-315): the lower boundary also forces `is_grounded` and
clears `is_jumping`. -/
def clampY (lv : Level) (p : Player) : Player :=
  if p.y < p.height / 2 then
    { p with y := p.height / 2, velocity_y := 0 }
  else if p.y > (lv.height : ℚ) * TILE_SIZE - p.height / 2 then
    { p with y := (lv.height : ℚ) * TILE_SIZE - p.height / 2, velocity_y := 0,
             is_grounded := true, is_jumping := false }
  else p

/-- Mirrors `Player::handle_collisions`: horizontal pass, revert `x` to
`original_x` when no horizontal contact, vertical pass on the corrected box,
revert `y` to `original_y` when no vertical contact, then the world-boundary
clamps. -/
def handle_collisions (lv : Level) (p : Player) (original_x original_y : ℚ) : Player :=
  let hc := collideX lv p
  let p2 := if hc.2 then hc.1 else { hc.1 with x := original_x }
  let vc := collideY lv p2
  let p4 := if vc.2 then vc.1 else { vc.1 with y := original_y }
  clampY lv (clampX lv p4)

/-- The friction block of `Player::update_side_scrolling` (applied only when
neither horizontal input is held and the player is grounded). -/
def applyFriction (ml mr grounded : Bool) (dt vx : ℚ) : ℚ :=
  if !ml && !mr && grounded then
    if vx > 0 then
      let v := vx - FRICTION * dt
      if v < 0 then 0 else v
    else if vx < 0 then
      let v := vx + FRICTION * dt
      if v > 0 then 0 else v
    else vx
  else vx

/-- Mirrors `Player::update_side_scrolling`: input acceleration, friction,
gravity, horizontal velocity cap, position integration, collision handling. -/
def update_side_scrolling (dt : ℚ) (lv : Level) (p : Player) : Player :=
  let vx1 := if p.moving_left then p.velocity_x - ACCELERATION * dt else p.velocity_x
  let vx2 := if p.moving_right then vx1 + ACCELERATION * dt else vx1
  let vx3 := applyFriction p.moving_left p.moving_right p.is_grounded dt vx2
  let vy1 := if !p.is_grounded then p.velocity_y + GRAVITY * dt else p.velocity_y
  let vx4 := if vx3 > MAX_VELOCITY then MAX_VELOCITY
             else if vx3 < -MAX_VELOCITY then -MAX_VELOCITY else vx3
  handle_collisions lv
    { p with velocity_x := vx4, velocity_y := vy1,
             x := p.x + vx4 * dt, y := p.y + vy1 * dt }
    p.x p.y

/-- Mirrors `Player::update_top_down`.  `sq` is the `f32::sqrt` used by the
diagonal normalization, passed as an explicit parameter (its exact value is
irrational, so it has no faithful `ℚ` definition; theorems about this
function either quantify over `sq` or concern non-diagonal inputs on which
the branch is not taken). -/
def update_top_down (sq : ℚ → ℚ) (dt : ℚ) (lv : Level) (p : Player) : Player :=
  let f1 := if p.moving_left then false else p.facing_right
  let f2 := if p.moving_right then true else f1
  let dx0 := (if p.moving_left then -MAX_VELOCITY else 0)
    + (if p.moving_right then MAX_VELOCITY else 0)
  let dy0 := (if p.moving_up then -MAX_VELOCITY else 0)
    + (if p.moving_down then MAX_VELOCITY else 0)
  let d :=
    if dx0 ≠ 0 ∧ dy0 ≠ 0 then
      let magnitude := sq (dx0 * dx0 + dy0 * dy0)
      (dx0 / magnitude * MAX_VELOCITY, dy0 / magnitude * MAX_VELOCITY)
    else (dx0, dy0)
  handle_collisions lv
    { p with facing_right := f2, x := p.x + d.1 * dt, y := p.y + d.2 * dt }
    p.x p.y

/-- The identifier string `format!("evidence_{}_{}", x, y)`. -/
def evidenceId (x y : Nat) : String :=
  "evidence_" ++ toString x ++ "_" ++ toString y

/-- The loop body of `Player::check_evidence_collection`, acting on the
collected list. -/
def collectCell (lv : Level) (acc : List String) (c : Nat × Nat) : List String :=
  match lv.get_tile c.1 c.2 with
  | some TileType.Evidence =>
    let eid := evidenceId c.1 c.2
    if eid ∈ acc then acc else acc ++ [eid]
  | _ => acc

/-- Mirrors `Player::check_evidence_collection`: scan the current footprint
and push each uncollected evidence identifier once. -/
def check_evidence_collection (lv : Level) (p : Player) : Player :=
  { p with evidence_collected := (footprintCells p).foldl (collectCell lv) p.evidence_collected }

/-- The animation bookkeeping of `Player::update` (source lines 103-107). -/
def animate (dt : ℚ) (p1 : Player) : Player :=
  let t := p1.animation_timer + dt
  if t > 1 / 10 then
    { p1 with animation_timer := 0, animation_frame := (p1.animation_frame + 1) % 4 }
  else
    { p1 with animation_timer := t }

/-- Mirrors `Player::update`: perspective dispatch, animation bookkeeping,
evidence collection. -/
def update (sq : ℚ → ℚ) (dt : ℚ) (lv : Level) (p : Player) : Player :=
  let p1 :=
    match lv.perspective with
    | Perspective.SideScrolling => update_side_scrolling dt lv p
    | Perspective.TopDown => update_top_down sq dt lv p
  check_evidence_collection lv (animate dt p1)

end Player

/-- The cell stream of the nested enumerate loops of `Level::from_string`:
`(row, column, character)` triples in scan order. -/
def cellsOf (lines : List (List Char)) : List (Nat × Nat × Char) :=
  lines.enum.flatMap (fun yl => yl.2.enum.map (fun xc => (yl.1, xc.1, xc.2)))

/-- `Level.processCell` uncurried over one `(row, column, character)` triple. -/
def cellStep (lv : Level) (t : Nat × Nat × Char) : Level :=
  Level.processCell lv t.1 t.2.1 t.2.2

/-- Top-down scenario level: an all-empty 4 by 4 grid. -/
def lvC1 : Level := Level.new 4 4 Perspective.TopDown

/-- Top-down scenario actor: centered at (64, 64), holding right. -/
def pC1 : Player := { Player.new 64 64 with moving_right := true }

/-- Scenario grid for C4: 2 by 2, evidence registered out of range. -/
def lvC4 : Level := (Level.new 2 2 Perspective.SideScrolling).add_evidence 5 5

/-- Ceiling scenario level: a 1 by 3 column with a wall tile on top. -/
def lvC5 : Level := (Level.new 1 3 Perspective.SideScrolling).set_tile 0 0 TileType.Wall

/-- Ceiling scenario actor: moving up into the wall tile, mid-jump. -/
def pC5 : Player :=
  { Player.new 16 40 with velocity_y := -100, is_jumping := true, is_grounded := false }

/-- Boundary scenario level: an all-empty 2 by 2 grid. -/
def lvC6 : Level := Level.new 2 2 Perspective.SideScrolling

/-- Boundary scenario actor: resting exactly on the lower world boundary
(y = 2*32 - 48/2 = 40), grounded, with zero velocity and no input. -/
def pC6 : Player := Player.new 32 40

/-- Landing scenario level: a 1 by 3 column with a platform tile at the
bottom row. -/
def lvC6w : Level := (Level.new 1 3 Perspective.SideScrolling).set_tile 0 2 TileType.Platform

/-- Landing scenario actor: falling onto the platform. -/
def pC6w : Player := { Player.new 16 40 with velocity_y := 100, is_grounded := false }

/-- Trigger scenario level: 3 by 3 top-down grid with evidence at (2, 2). -/
def lvC10 : Level := (Level.new 3 3 Perspective.TopDown).add_evidence 2 2

/-- Trigger scenario actor: standing with tile (2, 2) inside the footprint. -/
def pC10 : Player := Player.new 80 80

/-- Invariant carried through the vertical collision scan, relative to the
entry state `q`: extents and horizontal state are untouched, the vertical
velocity is either still the entry value or has been zeroed, and a grounded
state records a downward contact in full (contact flag, zero vertical
velocity, cleared jump flag, positive entry velocity, and a snap position at
the top face of some solid tile). -/
abbrev YInv (lv : Level) (q : Player) (s : Player × Bool) : Prop :=
  s.1.height = q.height ∧ s.1.width = q.width ∧ s.1.x = q.x ∧
  s.1.velocity_x = q.velocity_x ∧
  (s.1.velocity_y = q.velocity_y ∨ s.1.velocity_y = 0) ∧
  (s.1.is_grounded = true →
    s.2 = true ∧ s.1.velocity_y = 0 ∧ s.1.is_jumping = false ∧
    0 < q.velocity_y ∧
    ∃ tx ty : Nat,
      (lv.get_tile tx ty = some TileType.Platform ∨
        lv.get_tile tx ty = some TileType.Wall) ∧
      s.1.y = (ty : ℚ) * TILE_SIZE - q.height / 2)

/-- Real-valued copy of the velocity derivation of `Player::update_top_down`
(source lines 167-193), with `f32::sqrt` modelled exactly by `Real.sqrt`.
Used to settle the diagonal-speed-cap claim. -/
noncomputable def topDownVelocity (ml mr mu md : Bool) : ℝ × ℝ :=
  let dx0 : ℝ := (if ml then -500 else 0) + (if mr then 500 else 0)
  let dy0 : ℝ := (if mu then -500 else 0) + (if md then 500 else 0)
  if dx0 ≠ 0 ∧ dy0 ≠ 0 then
    let magnitude := Real.sqrt (dx0 * dx0 + dy0 * dy0)
    (dx0 / magnitude * 500, dy0 / magnitude * 500)
  else (dx0, dy0)

/-!
Generic fold lemmas
-/

/-- A predicate preserved by every step of a left fold holds of the result. -/
theorem foldl_hold {α : Type} {σ : Type} (f : σ → α → σ) (P : σ → Prop) :
    ∀ (l : List α) (s : σ), P s → (∀ s' a, P s' → a ∈ l → P (f s' a)) → P (l.foldl f s) := by
  intro l
  induction l with
  | nil => intro s h0 _; exact h0
  | cons a t ih =>
    intro s h0 hstep
    exact ih (f s a) (hstep s a h0 (by simp))
      (fun s' b hb hmem => hstep s' b hb (by simp [hmem]))

/-- A left fold whose step fixes every state is the identity. -/
theorem foldl_id_of_forall {α : Type} {σ : Type} (f : σ → α → σ) :
    ∀ (l : List α), (∀ s a, a ∈ l → f s a = s) → ∀ s, l.foldl f s = s := by
  intro l
  induction l with
  | nil => intro _ s; rfl
  | cons a t ih =>
    intro h s
    rw [List.foldl_cons, h s a (by simp)]
    exact ih (fun s' b hb => h s' b (by simp [hb])) s

/-!
Small `Level` lemmas
-/

theorem set_tile_width (lv : Level) (x y : Nat) (t : TileType) :
    (lv.set_tile x y t).width = lv.width := by
  unfold Level.set_tile; split <;> rfl

theorem set_tile_height (lv : Level) (x y : Nat) (t : TileType) :
    (lv.set_tile x y t).height = lv.height := by
  unfold Level.set_tile; split <;> rfl

theorem set_tile_spawn (lv : Level) (x y : Nat) (t : TileType) :
    (lv.set_tile x y t).spawn_point = lv.spawn_point := by
  unfold Level.set_tile; split <;> rfl

theorem set_tile_tiles_length (lv : Level) (x y : Nat) (t : TileType) :
    (lv.set_tile x y t).tiles.length = lv.tiles.length := by
  unfold Level.set_tile; split <;> simp

theorem add_evidence_width (lv : Level) (x y : Nat) :
    (lv.add_evidence x y).width = lv.width := by
  unfold Level.add_evidence; rw [set_tile_width]

theorem add_evidence_height (lv : Level) (x y : Nat) :
    (lv.add_evidence x y).height = lv.height := by
  unfold Level.add_evidence; rw [set_tile_height]

theorem add_evidence_spawn (lv : Level) (x y : Nat) :
    (lv.add_evidence x y).spawn_point = lv.spawn_point := by
  unfold Level.add_evidence; rw [set_tile_spawn]

theorem add_evidence_tiles_length (lv : Level) (x y : Nat) :
    (lv.add_evidence x y).tiles.length = lv.tiles.length := by
  unfold Level.add_evidence; rw [set_tile_tiles_length]

theorem get_tile_none_of_out (lv : Level) (x y : Nat)
    (h : lv.width ≤ x ∨ lv.height ≤ y) : lv.get_tile x y = none := by
  unfold Level.get_tile
  rw [if_neg]
  rintro ⟨h1, h2⟩
  rcases h with h | h <;> omega

/-- Row-major index injectivity on in-range columns. -/
theorem rowmajor_ne {w x x' y y' : Nat} (hx : x < w) (hx' : x' < w)
    (hp : (x', y') ≠ (x, y)) : y' * w + x' ≠ y * w + x := by
  intro he
  apply hp
  rcases Nat.lt_trichotomy y' y with h | h | h
  · exfalso
    have hlt : y' * w + x' < y * w + x :=
      calc y' * w + x' < y' * w + w := by omega
        _ = (y' + 1) * w := by ring
        _ ≤ y * w := Nat.mul_le_mul_right w (Nat.succ_le_of_lt h)
        _ ≤ y * w + x := Nat.le_add_right _ _
    omega
  · subst h
    have : x' = x := Nat.add_left_cancel he
    simp [this]
  · exfalso
    have hlt : y * w + x < y' * w + x' :=
      calc y * w + x < y * w + w := by omega
        _ = (y + 1) * w := by ring
        _ ≤ y' * w := Nat.mul_le_mul_right w (Nat.succ_le_of_lt h)
        _ ≤ y' * w + x' := Nat.le_add_right _ _
    omega

theorem get_tile_set_tile_self (lv : Level) (x y : Nat) (t : TileType)
    (h1 : x < lv.width) (h2 : y < lv.height)
    (hlen : lv.tiles.length = lv.width * lv.height) :
    (lv.set_tile x y t).get_tile x y = some t := by
  have hrec : lv.set_tile x y t
      = { lv with tiles := lv.tiles.set (y * lv.width + x) t } := by
    unfold Level.set_tile; rw [if_pos ⟨h1, h2⟩]
  rw [hrec]
  show (if x < lv.width ∧ y < lv.height then
      (lv.tiles.set (y * lv.width + x) t)[y * lv.width + x]? else none) = some t
  rw [if_pos ⟨h1, h2⟩]
  apply List.getElem?_set_eq_of_lt
  calc y * lv.width + x < y * lv.width + lv.width := by omega
    _ = (y + 1) * lv.width := by ring
    _ ≤ lv.height * lv.width := Nat.mul_le_mul_right _ (Nat.succ_le_of_lt h2)
    _ = lv.width * lv.height := by ring
    _ = lv.tiles.length := hlen.symm

theorem get_tile_set_tile_ne (lv : Level) (x y x' y' : Nat) (t : TileType)
    (hne : (x', y') ≠ (x, y)) :
    (lv.set_tile x' y' t).get_tile x y = lv.get_tile x y := by
  by_cases hin' : x' < lv.width ∧ y' < lv.height
  · have hrec : lv.set_tile x' y' t
        = { lv with tiles := lv.tiles.set (y' * lv.width + x') t } := by
      unfold Level.set_tile; rw [if_pos hin']
    rw [hrec]
    show (if x < lv.width ∧ y < lv.height then
        (lv.tiles.set (y' * lv.width + x') t)[y * lv.width + x]? else none)
      = lv.get_tile x y
    unfold Level.get_tile
    by_cases hin : x < lv.width ∧ y < lv.height
    · rw [if_pos hin, if_pos hin]
      exact List.getElem?_set_ne (rowmajor_ne hin.1 hin'.1 hne)
    · rw [if_neg hin, if_neg hin]
  · have hrec : lv.set_tile x' y' t = lv := by
      unfold Level.set_tile; rw [if_neg hin']
    rw [hrec]

theorem get_tile_add_evidence_self (lv : Level) (x y : Nat)
    (h1 : x < lv.width) (h2 : y < lv.height)
    (hlen : lv.tiles.length = lv.width * lv.height) :
    (lv.add_evidence x y).get_tile x y = some TileType.Evidence := by
  unfold Level.add_evidence
  exact get_tile_set_tile_self _ x y _ h1 h2 hlen

theorem get_tile_add_evidence_ne (lv : Level) (x y x' y' : Nat)
    (hne : (x', y') ≠ (x, y)) :
    (lv.add_evidence x' y').get_tile x y = lv.get_tile x y := by
  unfold Level.add_evidence
  rw [get_tile_set_tile_ne _ _ _ _ _ _ hne]
  unfold Level.get_tile
  rfl

/-- A tile returned by `get_tile` belongs to the tile vector. -/
theorem get_tile_mem (lv : Level) (x y : Nat) (t : TileType)
    (h : lv.get_tile x y = some t) : t ∈ lv.tiles := by
  unfold Level.get_tile at h
  split at h
  · obtain ⟨hlt, heq⟩ := List.getElem?_eq_some.mp h
    exact heq ▸ List.getElem_mem hlt
  · exact absurd h (by simp)

/-!
`processCell` and loader-fold lemmas
-/

theorem processCell_width (lv : Level) (y x : Nat) (c : Char) :
    (Level.processCell lv y x c).width = lv.width := by
  unfold Level.processCell
  split <;> simp [set_tile_width, add_evidence_width, Level.set_spawn_point]

theorem processCell_height (lv : Level) (y x : Nat) (c : Char) :
    (Level.processCell lv y x c).height = lv.height := by
  unfold Level.processCell
  split <;> simp [set_tile_height, add_evidence_height, Level.set_spawn_point]

theorem processCell_tiles_length (lv : Level) (y x : Nat) (c : Char) :
    (Level.processCell lv y x c).tiles.length = lv.tiles.length := by
  unfold Level.processCell
  split <;> simp [set_tile_tiles_length, add_evidence_tiles_length, Level.set_spawn_point]

theorem processCell_spawn_of_ne (lv : Level) (y x : Nat) (c : Char) (h : c ≠ 'S') :
    (Level.processCell lv y x c).spawn_point = lv.spawn_point := by
  unfold Level.processCell
  split
  · rw [set_tile_spawn]
  · rw [set_tile_spawn]
  · rw [add_evidence_spawn]
  · exact absurd rfl h
  · rw [set_tile_spawn]

theorem processCell_get_tile_ne (lv : Level) (y x cx cy : Nat) (c : Char)
    (hne : (x, y) ≠ (cx, cy)) :
    (Level.processCell lv y x c).get_tile cx cy = lv.get_tile cx cy := by
  unfold Level.processCell
  split
  · rw [get_tile_set_tile_ne _ _ _ _ _ _ hne]
  · rw [get_tile_set_tile_ne _ _ _ _ _ _ hne]
  · rw [get_tile_add_evidence_ne _ _ _ _ _ hne]
  · rw [get_tile_set_tile_ne _ _ _ _ _ _ hne]
    unfold Level.get_tile Level.set_spawn_point
    rfl
  · rw [get_tile_set_tile_ne _ _ _ _ _ _ hne]

theorem cellStep_width (lv : Level) (t : Nat × Nat × Char) :
    (cellStep lv t).width = lv.width := processCell_width lv t.1 t.2.1 t.2.2

theorem cellStep_height (lv : Level) (t : Nat × Nat × Char) :
    (cellStep lv t).height = lv.height := processCell_height lv t.1 t.2.1 t.2.2

theorem cellStep_tiles_length (lv : Level) (t : Nat × Nat × Char) :
    (cellStep lv t).tiles.length = lv.tiles.length :=
  processCell_tiles_length lv t.1 t.2.1 t.2.2

theorem fold_cellStep_width (cells : List (Nat × Nat × Char)) (lv : Level) :
    (cells.foldl cellStep lv).width = lv.width := by
  induction cells generalizing lv with
  | nil => rfl
  | cons t rest ih => rw [List.foldl_cons, ih, cellStep_width]

theorem fold_cellStep_height (cells : List (Nat × Nat × Char)) (lv : Level) :
    (cells.foldl cellStep lv).height = lv.height := by
  induction cells generalizing lv with
  | nil => rfl
  | cons t rest ih => rw [List.foldl_cons, ih, cellStep_height]

theorem fold_cellStep_tiles_length (cells : List (Nat × Nat × Char)) (lv : Level) :
    (cells.foldl cellStep lv).tiles.length = lv.tiles.length := by
  induction cells generalizing lv with
  | nil => rfl
  | cons t rest ih => rw [List.foldl_cons, ih, cellStep_tiles_length]

theorem fold_cellStep_spawn_no_S (cells : List (Nat × Nat × Char))
    (h : ∀ t ∈ cells, t.2.2 ≠ 'S') (lv : Level) :
    (cells.foldl cellStep lv).spawn_point = lv.spawn_point := by
  induction cells generalizing lv with
  | nil => rfl
  | cons t rest ih =>
    rw [List.foldl_cons, ih (fun u hu => h u (by simp [hu]))]
    exact processCell_spawn_of_ne lv t.1 t.2.1 t.2.2 (h t (by simp))

theorem fold_cellStep_get_tile_ne (cells : List (Nat × Nat × Char)) (cx cy : Nat)
    (h : ∀ t ∈ cells, (t.2.1, t.1) ≠ (cx, cy)) (lv : Level) :
    (cells.foldl cellStep lv).get_tile cx cy = lv.get_tile cx cy := by
  induction cells generalizing lv with
  | nil => rfl
  | cons t rest ih =>
    rw [List.foldl_cons, ih (fun u hu => h u (by simp [hu]))]
    exact processCell_get_tile_ne lv t.1 t.2.1 cx cy t.2.2 (h t (by simp))

/-- The nested enumerate fold of `from_lines` equals the flat fold over
`cellsOf`. -/
theorem from_lines_eq_cells (lines : List (List Char)) (w h : Nat) (p : Perspective) :
    Level.from_lines lines w h p = (cellsOf lines).foldl cellStep (Level.new w h p) := by
  unfold Level.from_lines cellsOf
  generalize Level.new w h p = lv
  generalize lines.enum = L
  induction L generalizing lv with
  | nil => rfl
  | cons yl rest ih =>
    rw [List.foldl_cons, List.flatMap_cons, List.foldl_append, ih]
    congr 1
    rw [List.foldl_map]
    rfl

theorem from_lines_width (lines : List (List Char)) (w h : Nat) (p : Perspective) :
    (Level.from_lines lines w h p).width = w := by
  rw [from_lines_eq_cells, fold_cellStep_width]
  rfl

theorem from_lines_height (lines : List (List Char)) (w h : Nat) (p : Perspective) :
    (Level.from_lines lines w h p).height = h := by
  rw [from_lines_eq_cells, fold_cellStep_height]
  rfl

theorem from_lines_tiles_length (lines : List (List Char)) (w h : Nat) (p : Perspective) :
    (Level.from_lines lines w h p).tiles.length = w * h := by
  rw [from_lines_eq_cells, fold_cellStep_tiles_length]
  simp [Level.new]

/-!
Collision-pass lemmas
-/

/-- A scanned cell holding no solid tile leaves the horizontal-pass state
unchanged. -/
theorem collideXCell_id (lv : Level) (left right : ℚ) (s : Player × Bool)
    (c : Nat × Nat)
    (hns : ∀ t, lv.get_tile c.1 c.2 = some t →
      t ≠ TileType.Platform ∧ t ≠ TileType.Wall) :
    Player.collideXCell lv left right s c = s := by
  unfold Player.collideXCell
  rcases hg : lv.get_tile c.1 c.2 with _ | t
  · rfl
  · have ht := hns t hg
    cases t
    · rfl
    · exact absurd rfl ht.1
    · exact absurd rfl ht.2
    · rfl

/-- A scanned cell holding no solid tile leaves the vertical-pass state
unchanged. -/
theorem collideYCell_id (lv : Level) (top bottom : ℚ) (s : Player × Bool)
    (c : Nat × Nat)
    (hns : ∀ t, lv.get_tile c.1 c.2 = some t →
      t ≠ TileType.Platform ∧ t ≠ TileType.Wall) :
    Player.collideYCell lv top bottom s c = s := by
  unfold Player.collideYCell
  rcases hg : lv.get_tile c.1 c.2 with _ | t
  · rfl
  · have ht := hns t hg
    cases t
    · rfl
    · exact absurd rfl ht.1
    · exact absurd rfl ht.2
    · rfl

/-- The horizontal pass touches only `x` and `velocity_x`. -/
theorem collideX_pres (lv : Level) (p : Player) :
    (Player.collideX lv p).1.y = p.y ∧
    (Player.collideX lv p).1.velocity_y = p.velocity_y ∧
    (Player.collideX lv p).1.is_grounded = p.is_grounded ∧
    (Player.collideX lv p).1.is_jumping = p.is_jumping ∧
    (Player.collideX lv p).1.height = p.height ∧
    (Player.collideX lv p).1.width = p.width := by
  unfold Player.collideX
  refine foldl_hold _
    (fun s : Player × Bool => s.1.y = p.y ∧ s.1.velocity_y = p.velocity_y ∧
      s.1.is_grounded = p.is_grounded ∧ s.1.is_jumping = p.is_jumping ∧
      s.1.height = p.height ∧ s.1.width = p.width)
    _ _ ⟨rfl, rfl, rfl, rfl, rfl, rfl⟩ ?_
  intro s c hs _
  unfold Player.collideXCell
  rcases hg : lv.get_tile c.1 c.2 with _ | t
  · exact hs
  · cases t
    · exact hs
    · split_ifs with h1 h2 <;> exact hs
    · split_ifs with h1 h2 <;> exact hs
    · exact hs

/-- One vertical-scan step preserves `YInv`. -/
theorem collideYCell_inv (lv : Level) (q : Player) (top bottom : ℚ)
    (s : Player × Bool) (c : Nat × Nat) (hs : YInv lv q s) :
    YInv lv q (Player.collideYCell lv top bottom s c) := by
  obtain ⟨hh, hw, hx, hvx, hvy, hgr⟩ := hs
  unfold Player.collideYCell
  rcases hg : lv.get_tile c.1 c.2 with _ | t
  · exact ⟨hh, hw, hx, hvx, hvy, hgr⟩
  · cases t
    · exact ⟨hh, hw, hx, hvx, hvy, hgr⟩
    · split_ifs with h1 h2
      · refine ⟨hh, hw, hx, hvx, Or.inr rfl,
          fun _ => ⟨rfl, rfl, rfl, ?_, c.1, c.2, Or.inl hg, by rw [hh]⟩⟩
        rcases hvy with hv | hv
        · rw [hv] at h1; exact h1.1
        · rw [hv] at h1; exact absurd h1.1 (by norm_num)
      · refine ⟨hh, hw, hx, hvx, Or.inr rfl, fun hgr2 => ?_⟩
        have hz := (hgr hgr2).2.1
        rw [hz] at h2
        exact absurd h2.1 (by norm_num)
      · exact ⟨hh, hw, hx, hvx, hvy, hgr⟩
    · split_ifs with h1 h2
      · refine ⟨hh, hw, hx, hvx, Or.inr rfl,
          fun _ => ⟨rfl, rfl, rfl, ?_, c.1, c.2, Or.inr hg, by rw [hh]⟩⟩
        rcases hvy with hv | hv
        · rw [hv] at h1; exact h1.1
        · rw [hv] at h1; exact absurd h1.1 (by norm_num)
      · refine ⟨hh, hw, hx, hvx, Or.inr rfl, fun hgr2 => ?_⟩
        have hz := (hgr hgr2).2.1
        rw [hz] at h2
        exact absurd h2.1 (by norm_num)
      · exact ⟨hh, hw, hx, hvx, hvy, hgr⟩
    · exact ⟨hh, hw, hx, hvx, hvy, hgr⟩

/-- The vertical pass satisfies `YInv` relative to its entry state. -/
theorem collideY_inv (lv : Level) (q : Player) :
    YInv lv q (Player.collideY lv q) := by
  unfold Player.collideY
  refine foldl_hold _ (YInv lv q) _ _
    ⟨rfl, rfl, rfl, rfl, Or.inl rfl, fun h => by simp at h⟩ ?_
  intro s c hs _
  exact collideYCell_inv lv q _ _ s c hs

/-- With no solid tile anywhere in the level and an in-bounds original
position, collision handling fully reverts both axes (the no-contact revert)
and only resets `is_grounded`. -/
theorem handle_collisions_no_solid (lv : Level) (q : Player) (ox oy : ℚ)
    (hsol : ∀ t ∈ lv.tiles, t ≠ TileType.Platform ∧ t ≠ TileType.Wall)
    (hox1 : q.width / 2 ≤ ox) (hox2 : ox ≤ (lv.width : ℚ) * TILE_SIZE - q.width / 2)
    (hoy1 : q.height / 2 ≤ oy) (hoy2 : oy ≤ (lv.height : ℚ) * TILE_SIZE - q.height / 2) :
    Player.handle_collisions lv q ox oy = { q with x := ox, y := oy, is_grounded := false } := by
  have hX : Player.collideX lv q = (q, false) := by
    unfold Player.collideX
    exact foldl_id_of_forall _ _
      (fun s c _ => collideXCell_id lv _ _ s c
        (fun t hg => hsol t (get_tile_mem lv c.1 c.2 t hg))) (q, false)
  have hY : Player.collideY lv { q with x := ox }
      = ({ q with x := ox, is_grounded := false }, false) := by
    unfold Player.collideY
    exact foldl_id_of_forall _ _
      (fun s c _ => collideYCell_id lv _ _ s c
        (fun t hg => hsol t (get_tile_mem lv c.1 c.2 t hg)))
      ({ q with x := ox, is_grounded := false }, false)
  simp only [Player.handle_collisions]
  rw [hX]
  simp only [if_neg (by simp : ¬(false = true))]
  rw [hY]
  simp only [if_neg (by simp : ¬(false = true))]
  unfold Player.clampX Player.clampY
  rw [if_neg (not_lt.mpr hox1), if_neg (not_lt.mpr hox2), if_neg (not_lt.mpr hoy1),
    if_neg (not_lt.mpr hoy2)]

/-- After collision handling, a grounded state implies zeroed vertical
velocity, and the final height is the entry height.  The grounded position is
the lower world boundary, the upper boundary (when a downward snap was pushed
back below the top edge), or the top face of some solid tile. -/
theorem handle_collisions_grounded (lv : Level) (q : Player) (ox oy : ℚ) :
    (Player.handle_collisions lv q ox oy).height = q.height ∧
    ((Player.handle_collisions lv q ox oy).is_grounded = true →
      (Player.handle_collisions lv q ox oy).velocity_y = 0 ∧
      ((Player.handle_collisions lv q ox oy).y
          = (lv.height : ℚ) * TILE_SIZE - q.height / 2 ∨
        (Player.handle_collisions lv q ox oy).y = q.height / 2 ∨
        ∃ tx ty : Nat,
          (lv.get_tile tx ty = some TileType.Platform ∨
            lv.get_tile tx ty = some TileType.Wall) ∧
          (Player.handle_collisions lv q ox oy).y
            = (ty : ℚ) * TILE_SIZE - q.height / 2)) := by
  obtain ⟨hXy, hXvy, hXgr, hXj, hXh, hXw⟩ := collideX_pres lv q
  simp only [Player.handle_collisions]
  set xc := Player.collideX lv q with hxc
  set p2 : Player := if xc.2 then xc.1 else { xc.1 with x := ox } with hp2
  have hp2h : p2.height = q.height := by
    rw [hp2]; split
    · exact hXh
    · exact hXh
  obtain yinv := collideY_inv lv p2
  set vc := Player.collideY lv p2 with hvc
  set p4 : Player := if vc.2 then vc.1 else { vc.1 with y := oy } with hp4
  have hp4gr : p4.is_grounded = vc.1.is_grounded := by rw [hp4]; split <;> rfl
  have hp4vy : p4.velocity_y = vc.1.velocity_y := by rw [hp4]; split <;> rfl
  have hp4h : p4.height = vc.1.height := by rw [hp4]; split <;> rfl
  have hp4y : p4.is_grounded = true → p4.y = vc.1.y := by
    rw [hp4]; split_ifs with hv2
    · intro _; rfl
    · intro hg4
      have hg1 : vc.1.is_grounded = true := hg4
      exact absurd (yinv.2.2.2.2.2 hg1).1 hv2
  have hvc1h : vc.1.height = p2.height := yinv.1
  have h1 : p4.height = q.height := by rw [hp4h, hvc1h, hp2h]
  have hgrfact : p4.is_grounded = true →
      p4.velocity_y = 0 ∧
      ∃ tx ty : Nat,
        (lv.get_tile tx ty = some TileType.Platform ∨
          lv.get_tile tx ty = some TileType.Wall) ∧
        p4.y = (ty : ℚ) * TILE_SIZE - q.height / 2 := by
    intro hg4
    have hg1 : vc.1.is_grounded = true := by rw [← hp4gr]; exact hg4
    obtain ⟨_, hvy0, _, _, tx, ty, hsol, hy⟩ := yinv.2.2.2.2.2 hg1
    refine ⟨by rw [hp4vy]; exact hvy0, tx, ty, hsol, ?_⟩
    rw [hp4y hg4, hy, hp2h]
  clear_value xc vc p4
  clear hp4 hp2 hp4gr hp4vy hp4y hvc1h hp2h yinv hxc hvc hXy hXvy hXgr hXj hXh hXw
  have hcx : (Player.clampX lv p4).y = p4.y ∧
      (Player.clampX lv p4).velocity_y = p4.velocity_y ∧
      (Player.clampX lv p4).is_grounded = p4.is_grounded ∧
      (Player.clampX lv p4).height = p4.height := by
    unfold Player.clampX; split_ifs <;> exact ⟨rfl, rfl, rfl, rfl⟩
  set w : Player := Player.clampX lv p4 with hw
  obtain ⟨hwy, hwvy, hwgr, hwh⟩ := hcx
  have hwhq : w.height = q.height := by rw [hwh, h1]
  unfold Player.clampY
  split_ifs with hb1 hb2
  · refine ⟨hwhq, fun _ => ⟨rfl, Or.inr (Or.inl ?_)⟩⟩
    show w.height / 2 = q.height / 2
    rw [hwhq]
  · refine ⟨hwhq, fun _ => ⟨rfl, Or.inl ?_⟩⟩
    show (lv.height : ℚ) * TILE_SIZE - w.height / 2
        = (lv.height : ℚ) * TILE_SIZE - q.height / 2
    rw [hwhq]
  · refine ⟨hwhq, fun hg => ?_⟩
    have hg4 : p4.is_grounded = true := by rw [← hwgr]; exact hg
    obtain ⟨hvy0, tx, ty, hsol, hy⟩ := hgrfact hg4
    exact ⟨by rw [hwvy]; exact hvy0,
      Or.inr (Or.inr ⟨tx, ty, hsol, by rw [hwy]; exact hy⟩)⟩

/-- With non-positive entry vertical velocity the vertical pass never grounds
(and never clears the jump flag). -/
theorem collideY_nonpos (lv : Level) (p : Player) (h : p.velocity_y ≤ 0) :
    (Player.collideY lv p).1.is_grounded = false ∧
    (Player.collideY lv p).1.is_jumping = p.is_jumping := by
  unfold Player.collideY
  refine (foldl_hold _
    (fun s : Player × Bool =>
      s.1.is_grounded = false ∧ s.1.is_jumping = p.is_jumping ∧ s.1.velocity_y ≤ 0)
    _ _ ⟨rfl, rfl, h⟩ ?_).imp id (fun h2 => h2.1)
  intro s c hs _
  obtain ⟨hg, hj, hv⟩ := hs
  unfold Player.collideYCell
  rcases hgt : lv.get_tile c.1 c.2 with _ | t
  · exact ⟨hg, hj, hv⟩
  · cases t
    · exact ⟨hg, hj, hv⟩
    · split_ifs with h1 h2
      · exact absurd h1.1 (by linarith)
      · exact ⟨hg, hj, le_refl 0⟩
      · exact ⟨hg, hj, hv⟩
    · split_ifs with h1 h2
      · exact absurd h1.1 (by linarith)
      · exact ⟨hg, hj, le_refl 0⟩
      · exact ⟨hg, hj, hv⟩
    · exact ⟨hg, hj, hv⟩

/-- When no scanned footprint cell holds a solid tile, the vertical pass only
resets `is_grounded`. -/
theorem collideY_no_solid_in_footprint (lv : Level) (p : Player)
    (h : ∀ c ∈ Player.footprintCells p, ∀ t, lv.get_tile c.1 c.2 = some t →
      t ≠ TileType.Platform ∧ t ≠ TileType.Wall) :
    Player.collideY lv p = ({ p with is_grounded := false }, false) := by
  unfold Player.collideY
  exact foldl_id_of_forall _ _
    (fun s c hc => collideYCell_id lv _ _ s c (h c hc))
    ({ p with is_grounded := false }, false)

/-!
Evidence-scan lemmas
-/

/-- The evidence scan only ever appends to the collected list. -/
theorem collect_mem (lv : Level) (a : String) :
    ∀ (cells : List (Nat × Nat)) (s : List String), a ∈ s →
      a ∈ cells.foldl (Player.collectCell lv) s := by
  intro cells
  induction cells with
  | nil => intro s hs; exact hs
  | cons c rest ih =>
    intro s hs
    rw [List.foldl_cons]
    apply ih
    unfold Player.collectCell
    rcases lv.get_tile c.1 c.2 with _ | t
    · exact hs
    · cases t
      · exact hs
      · exact hs
      · exact hs
      · show a ∈ if Player.evidenceId c.1 c.2 ∈ s then s
          else s ++ [Player.evidenceId c.1 c.2]
        split_ifs <;> simp [hs]

/-- Scanning cells whose evidence identifiers are all already collected is a
no-op. -/
theorem collect_noop (lv : Level) :
    ∀ (cells : List (Nat × Nat)) (s : List String),
      (∀ c ∈ cells, lv.get_tile c.1 c.2 = some TileType.Evidence →
        Player.evidenceId c.1 c.2 ∈ s) →
      cells.foldl (Player.collectCell lv) s = s := by
  intro cells
  induction cells with
  | nil => intro s _; rfl
  | cons c rest ih =>
    intro s hs
    rw [List.foldl_cons]
    have hcell : Player.collectCell lv s c = s := by
      unfold Player.collectCell
      rcases hgt : lv.get_tile c.1 c.2 with _ | t
      · rfl
      · cases t
        · rfl
        · rfl
        · rfl
        · rw [if_pos (hs c (by simp) hgt)]
    rw [hcell]
    exact ih s (fun c' hc' => hs c' (by simp [hc']))

/-- Scanning a cell list whose only evidence cell is `tgt` (present, not yet
collected) appends exactly the identifier of `tgt`. -/
theorem collect_single (lv : Level) (tgt : Nat × Nat)
    (htile : lv.get_tile tgt.1 tgt.2 = some TileType.Evidence) :
    ∀ (cells : List (Nat × Nat)) (s : List String),
      (∀ c ∈ cells, lv.get_tile c.1 c.2 = some TileType.Evidence → c = tgt) →
      tgt ∈ cells →
      Player.evidenceId tgt.1 tgt.2 ∉ s →
      cells.foldl (Player.collectCell lv) s = s ++ [Player.evidenceId tgt.1 tgt.2] := by
  intro cells
  induction cells with
  | nil => intro s _ hmem _; exact absurd hmem (by simp)
  | cons c rest ih =>
    intro s honly hmem hnew
    rw [List.foldl_cons]
    by_cases hc : c = tgt
    · subst hc
      have hcell : Player.collectCell lv s c = s ++ [Player.evidenceId c.1 c.2] := by
        unfold Player.collectCell
        rw [htile]
        show (if Player.evidenceId c.1 c.2 ∈ s then s
          else s ++ [Player.evidenceId c.1 c.2]) = s ++ [Player.evidenceId c.1 c.2]
        rw [if_neg hnew]
      rw [hcell]
      apply collect_noop
      intro c' hc' hev'
      rw [honly c' (by simp [hc']) hev']
      simp
    · have hcell : Player.collectCell lv s c = s := by
        unfold Player.collectCell
        rcases hgt : lv.get_tile c.1 c.2 with _ | t
        · rfl
        · cases t
          · rfl
          · rfl
          · rfl
          · exact absurd (honly c (by simp) hgt) hc
      rw [hcell]
      have hmem' : tgt ∈ rest := by
        rcases List.mem_cons.mp hmem with h | h
        · exact absurd h.symm hc
        · exact h
      exact ih s (fun c' hc' => honly c' (by simp [hc'])) hmem' hnew

/-!
Post-stage (animation and evidence) projection lemmas
-/

theorem check_ev_pres (lv : Level) (p : Player) :
    (Player.check_evidence_collection lv p).x = p.x ∧
    (Player.check_evidence_collection lv p).y = p.y ∧
    (Player.check_evidence_collection lv p).velocity_x = p.velocity_x ∧
    (Player.check_evidence_collection lv p).velocity_y = p.velocity_y ∧
    (Player.check_evidence_collection lv p).is_grounded = p.is_grounded ∧
    (Player.check_evidence_collection lv p).is_jumping = p.is_jumping ∧
    (Player.check_evidence_collection lv p).height = p.height ∧
    (Player.check_evidence_collection lv p).width = p.width :=
  ⟨rfl, rfl, rfl, rfl, rfl, rfl, rfl, rfl⟩

theorem animate_pres (dt : ℚ) (p : Player) :
    (Player.animate dt p).x = p.x ∧
    (Player.animate dt p).y = p.y ∧
    (Player.animate dt p).velocity_x = p.velocity_x ∧
    (Player.animate dt p).velocity_y = p.velocity_y ∧
    (Player.animate dt p).is_grounded = p.is_grounded ∧
    (Player.animate dt p).is_jumping = p.is_jumping ∧
    (Player.animate dt p).height = p.height ∧
    (Player.animate dt p).width = p.width ∧
    (Player.animate dt p).evidence_collected = p.evidence_collected := by
  simp only [Player.animate]
  split_ifs <;> exact ⟨rfl, rfl, rfl, rfl, rfl, rfl, rfl, rfl, rfl⟩

/-- Every update step routes through `handle_collisions` on a moved state `q`
with unchanged extents and the entry position as rollback target. -/
theorem update_eq_hc (sq : ℚ → ℚ) (dt : ℚ) (lv : Level) (p : Player) :
    ∃ q : Player,
      Player.update sq dt lv p
        = Player.check_evidence_collection lv
            (Player.animate dt (Player.handle_collisions lv q p.x p.y)) ∧
      q.height = p.height ∧ q.width = p.width := by
  unfold Player.update
  rcases hper : lv.perspective
  · simp only [hper]
    unfold Player.update_side_scrolling
    exact ⟨_, rfl, rfl, rfl⟩
  · simp only [hper]
    unfold Player.update_top_down
    exact ⟨_, rfl, rfl, rfl⟩

/-- In top-down perspective, the moved state entering `handle_collisions`
also keeps the entry velocities (they are never written in this mode). -/
theorem update_top_down_eq (sq : ℚ → ℚ) (dt : ℚ) (lv : Level) (p : Player) :
    ∃ q : Player,
      Player.update_top_down sq dt lv p = Player.handle_collisions lv q p.x p.y ∧
      q.height = p.height ∧ q.width = p.width ∧
      q.velocity_x = p.velocity_x ∧ q.velocity_y = p.velocity_y := by
  unfold Player.update_top_down
  exact ⟨_, rfl, rfl, rfl, rfl, rfl⟩

/-!
Claim theorems
-/

/-- Claim C7: calling `jump()` when `is_grounded` is true sets
`velocity_y = -JUMP_VELOCITY`, `is_jumping = true`, `is_grounded = false`;
calling it when `is_grounded` is false leaves the entire actor state
unchanged (airborne jump requests are silently ignored). -/
theorem C7_jump_spec (p : Player) :
    (p.is_grounded = true →
      p.jump = { p with velocity_y := -JUMP_VELOCITY, is_jumping := true,
                        is_grounded := false }) ∧
    (p.is_grounded = false → p.jump = p) := by
  constructor
  · intro h
    unfold Player.jump
    rw [if_pos h]
  · intro h
    unfold Player.jump
    rw [if_neg (by simp [h])]

/-- Witness for C7 at a concrete grounded and a concrete airborne state. -/
theorem C7_jump_spec_witness :
    (Player.new 10 20).jump
        = { Player.new 10 20 with
            velocity_y := -JUMP_VELOCITY
            is_jumping := true
            is_grounded := false } ∧
    ({ Player.new 10 20 with is_grounded := false } : Player).jump
        = { Player.new 10 20 with is_grounded := false } :=
  ⟨(C7_jump_spec (Player.new 10 20)).1 rfl,
   (C7_jump_spec { Player.new 10 20 with is_grounded := false }).2 rfl⟩

/-- Claim C8: with both horizontal inputs released and the actor grounded,
the friction update shrinks the horizontal speed by exactly
`FRICTION * dt` clamped at zero: the new speed is
`max (|vx| - FRICTION*dt) 0`, never larger than the old speed, and the sign
never flips. -/
theorem C8_friction_monotone (vx dt : ℚ) (hdt : 0 ≤ dt) :
    |Player.applyFriction false false true dt vx| = max (|vx| - FRICTION * dt) 0 ∧
    |Player.applyFriction false false true dt vx| ≤ |vx| ∧
    0 ≤ Player.applyFriction false false true dt vx * vx := by
  have hF : (0 : ℚ) ≤ FRICTION * dt := by
    apply mul_nonneg _ hdt
    norm_num [FRICTION]
  have hval : Player.applyFriction false false true dt vx
      = if vx > 0 then (if vx - FRICTION * dt < 0 then 0 else vx - FRICTION * dt)
        else if vx < 0 then (if vx + FRICTION * dt > 0 then 0 else vx + FRICTION * dt)
        else vx := rfl
  rw [hval]
  rcases lt_trichotomy vx 0 with hneg | hzero | hpos
  · rw [if_neg (by linarith), if_pos hneg]
    have habs : |vx| = -vx := abs_of_neg hneg
    by_cases hv : vx + FRICTION * dt > 0
    · rw [if_pos hv]
      refine ⟨?_, ?_, by simp⟩
      · rw [abs_zero, habs]
        symm
        apply max_eq_right
        linarith
      · rw [abs_zero]
        exact abs_nonneg vx
    · rw [if_neg hv]
      have hle : vx + FRICTION * dt ≤ 0 := not_lt.mp hv
      have habs2 : |vx + FRICTION * dt| = -(vx + FRICTION * dt) := by
        rcases eq_or_lt_of_le hle with h | h
        · rw [h]; simp
        · exact abs_of_neg h
      refine ⟨?_, ?_, ?_⟩
      · rw [habs2, habs, max_eq_left (by linarith : (0 : ℚ) ≤ -vx - FRICTION * dt)]
        ring
      · rw [habs2, habs]
        linarith
      · nlinarith
  · subst hzero
    rw [if_neg (by linarith), if_neg (by linarith)]
    refine ⟨?_, le_refl _, by simp⟩
    rw [abs_zero]
    symm
    apply max_eq_right
    simp
    linarith
  · rw [if_pos hpos]
    have habs : |vx| = vx := abs_of_pos hpos
    by_cases hv : vx - FRICTION * dt < 0
    · rw [if_pos hv]
      refine ⟨?_, ?_, by simp⟩
      · rw [abs_zero, habs]
        symm
        apply max_eq_right
        linarith
      · rw [abs_zero]
        exact abs_nonneg vx
    · rw [if_neg hv]
      have hge : 0 ≤ vx - FRICTION * dt := not_lt.mp hv
      refine ⟨?_, ?_, ?_⟩
      · rw [abs_of_nonneg hge, habs]
        symm
        apply max_eq_left
        linarith
      · rw [abs_of_nonneg hge, habs]
        linarith
      · nlinarith

/-- Witness for C8 at `vx = 100`, `dt = 1/10`. -/
theorem C8_friction_monotone_witness :
    |Player.applyFriction false false true (1 / 10) 100|
        = max (|(100 : ℚ)| - FRICTION * (1 / 10)) 0 ∧
    |Player.applyFriction false false true (1 / 10) 100| ≤ |(100 : ℚ)| ∧
    0 ≤ Player.applyFriction false false true (1 / 10) 100 * 100 :=
  C8_friction_monotone 100 (1 / 10) (by norm_num)

/-- Normalizing a vector with components of square 250000 to length 500
yields a vector of length exactly 500. -/
theorem diag_norm_key (a b : ℝ) (ha : a ^ 2 = 250000) (hb : b ^ 2 = 250000) :
    Real.sqrt ((a / Real.sqrt (a * a + b * b) * 500) ^ 2
      + (b / Real.sqrt (a * a + b * b) * 500) ^ 2) = 500 ∧
    0 < 500 / Real.sqrt (a * a + b * b) := by
  have hs : a * a + b * b = 500000 := by nlinarith [ha, hb]
  have hpos : (0 : ℝ) < Real.sqrt (a * a + b * b) := by
    apply Real.sqrt_pos.mpr
    rw [hs]
    norm_num
  have hsq : Real.sqrt (a * a + b * b) ^ 2 = 500000 := by
    rw [Real.sq_sqrt (by rw [hs]; norm_num)]
    exact hs
  have hval : (a / Real.sqrt (a * a + b * b) * 500) ^ 2
      + (b / Real.sqrt (a * a + b * b) * 500) ^ 2 = 250000 := by
    have hne : Real.sqrt (a * a + b * b) ≠ 0 := ne_of_gt hpos
    field_simp
    nlinarith [ha, hb, hsq]
  constructor
  · rw [hval, show (250000 : ℝ) = 500 ^ 2 by norm_num,
      Real.sqrt_sq (by norm_num : (0 : ℝ) ≤ 500)]
  · positivity

/-- Evaluation of `topDownVelocity` when both accumulated axes are nonzero:
the diagonal normalization branch is taken. -/
theorem topDownVelocity_eval (ml mr mu md : Bool) (a b : ℝ)
    (hda : ((if ml then (-500 : ℝ) else 0) + (if mr then 500 else 0)) = a)
    (hdb : ((if mu then (-500 : ℝ) else 0) + (if md then 500 else 0)) = b)
    (ha : a ≠ 0) (hb : b ≠ 0) :
    topDownVelocity ml mr mu md
      = (a / Real.sqrt (a * a + b * b) * 500, b / Real.sqrt (a * a + b * b) * 500) := by
  unfold topDownVelocity
  simp only [hda, hdb]
  rw [if_pos ⟨ha, hb⟩]

/-- Claim C9: in top-down mode with genuine diagonal intent (exactly one of
left/right held and exactly one of up/down held), the derived velocity vector
has magnitude exactly `MAX_VELOCITY` (= 500), with its direction preserved
(it is a positive multiple of the raw intent vector), not
`MAX_VELOCITY * sqrt 2`. -/
theorem C9_diagonal_speed_cap (ml mr mu md : Bool) (hlr : ml ≠ mr) (hud : mu ≠ md) :
    Real.sqrt ((topDownVelocity ml mr mu md).1 ^ 2
      + (topDownVelocity ml mr mu md).2 ^ 2) = 500 ∧
    ∃ k : ℝ, 0 < k ∧
      (topDownVelocity ml mr mu md).1
        = k * ((if ml then (-500 : ℝ) else 0) + (if mr then 500 else 0)) ∧
      (topDownVelocity ml mr mu md).2
        = k * ((if mu then (-500 : ℝ) else 0) + (if md then 500 else 0)) := by
  cases ml <;> cases mr <;> cases mu <;> cases md <;>
    try first | exact absurd rfl hlr | exact absurd rfl hud
  · rw [topDownVelocity_eval _ _ _ _ 500 500
        (by norm_num) (by norm_num) (by norm_num) (by norm_num)]
    obtain ⟨h1, h2⟩ := diag_norm_key 500 500 (by norm_num) (by norm_num)
    refine ⟨h1, 500 / Real.sqrt (500 * 500 + 500 * 500), h2, ?_, ?_⟩ <;>
      · show (500 : ℝ) / Real.sqrt (500 * 500 + 500 * 500) * 500 = _
        norm_num
  · rw [topDownVelocity_eval _ _ _ _ 500 (-500)
        (by norm_num) (by norm_num) (by norm_num) (by norm_num)]
    obtain ⟨h1, h2⟩ := diag_norm_key 500 (-500) (by norm_num) (by norm_num)
    refine ⟨h1, 500 / Real.sqrt (500 * 500 + -500 * -500), h2, ?_, ?_⟩
    · show (500 : ℝ) / Real.sqrt (500 * 500 + -500 * -500) * 500 = _
      norm_num
    · show (-500 : ℝ) / Real.sqrt (500 * 500 + -500 * -500) * 500 = _
      norm_num
      ring
  · rw [topDownVelocity_eval _ _ _ _ (-500) 500
        (by norm_num) (by norm_num) (by norm_num) (by norm_num)]
    obtain ⟨h1, h2⟩ := diag_norm_key (-500) 500 (by norm_num) (by norm_num)
    refine ⟨h1, 500 / Real.sqrt (-500 * -500 + 500 * 500), h2, ?_, ?_⟩
    · show (-500 : ℝ) / Real.sqrt (-500 * -500 + 500 * 500) * 500 = _
      norm_num
      ring
    · show (500 : ℝ) / Real.sqrt (-500 * -500 + 500 * 500) * 500 = _
      norm_num
  · rw [topDownVelocity_eval _ _ _ _ (-500) (-500)
        (by norm_num) (by norm_num) (by norm_num) (by norm_num)]
    obtain ⟨h1, h2⟩ := diag_norm_key (-500) (-500) (by norm_num) (by norm_num)
    refine ⟨h1, 500 / Real.sqrt (-500 * -500 + -500 * -500), h2, ?_, ?_⟩ <;>
      · show (-500 : ℝ) / Real.sqrt (-500 * -500 + -500 * -500) * 500 = _
        norm_num
        ring

/-- Witness for C9 at right-and-down intent. -/
theorem C9_diagonal_speed_cap_witness :
    Real.sqrt ((topDownVelocity false true false true).1 ^ 2
      + (topDownVelocity false true false true).2 ^ 2) = 500 ∧
    ∃ k : ℝ, 0 < k ∧
      (topDownVelocity false true false true).1
        = k * ((if false then (-500 : ℝ) else 0) + (if true then 500 else 0)) ∧
      (topDownVelocity false true false true).2
        = k * ((if false then (-500 : ℝ) else 0) + (if true then 500 else 0)) :=
  C9_diagonal_speed_cap false true false true (by decide) (by decide)

/-- Claim C10: if the actor's footprint contains exactly one evidence tile
`(ex, ey)` whose identifier has not been collected, then one scan appends that
identifier exactly once, and any number of further scans over the same
footprint changes nothing: after `n + 1` scans the collected list has grown by
exactly the one identifier. -/
theorem C10_trigger_idempotent (lv : Level) (p : Player) (ex ey : Nat)
    (hmem : (ex, ey) ∈ Player.footprintCells p)
    (htile : lv.get_tile ex ey = some TileType.Evidence)
    (hnew : Player.evidenceId ex ey ∉ p.evidence_collected)
    (honly : ∀ c ∈ Player.footprintCells p,
      lv.get_tile c.1 c.2 = some TileType.Evidence → c = (ex, ey)) :
    ∀ n : Nat,
      ((fun q => Player.check_evidence_collection lv q)^[n + 1] p).evidence_collected
        = p.evidence_collected ++ [Player.evidenceId ex ey] := by
  have hfoot : ∀ q : Player,
      Player.footprintCells (Player.check_evidence_collection lv q)
        = Player.footprintCells q := fun _ => rfl
  have hiterfp : ∀ k : Nat,
      Player.footprintCells ((fun q => Player.check_evidence_collection lv q)^[k] p)
        = Player.footprintCells p := by
    intro k
    induction k with
    | zero => rfl
    | succ j ihj =>
      rw [Function.iterate_succ_apply']
      rw [hfoot]
      exact ihj
  have hstep1 : (Player.check_evidence_collection lv p).evidence_collected
      = p.evidence_collected ++ [Player.evidenceId ex ey] := by
    unfold Player.check_evidence_collection
    exact collect_single lv (ex, ey) htile (Player.footprintCells p)
      p.evidence_collected honly hmem hnew
  intro n
  induction n with
  | zero => exact hstep1
  | succ m ih =>
    rw [Function.iterate_succ_apply']
    show (Player.check_evidence_collection lv
      ((fun q => Player.check_evidence_collection lv q)^[m + 1] p)).evidence_collected
        = p.evidence_collected ++ [Player.evidenceId ex ey]
    unfold Player.check_evidence_collection
    show (Player.footprintCells ((fun q => Player.check_evidence_collection lv q)^[m + 1] p)).foldl
        (Player.collectCell lv)
        (((fun q => Player.check_evidence_collection lv q)^[m + 1] p).evidence_collected)
      = p.evidence_collected ++ [Player.evidenceId ex ey]
    rw [hiterfp (m + 1), ih]
    apply collect_noop
    intro c hc hev
    rw [honly c hc hev]
    simp

/-- Witness for C10: the concrete 3 by 3 top-down grid with one evidence tile
at (2, 2), scanned twice from a footprint covering it. -/
theorem C10_trigger_idempotent_witness :
    ((fun q => Player.check_evidence_collection lvC10 q)^[1 + 1] pC10).evidence_collected
      = pC10.evidence_collected ++ [Player.evidenceId 2 2] := by
  have hfp : Player.footprintCells pC10 = [(2, 1), (2, 2), (2, 3)] := by
    norm_num [pC10, Player.footprintCells, Player.cellsBetween, Player.tileIndex,
      TILE_SIZE, Player.new, List.range', List.flatMap, Int.toNat_ofNat]
    decide
  apply C10_trigger_idempotent lvC10 pC10 2 2
  · rw [hfp]
    simp
  · decide
  · decide
  · rw [hfp]
    decide

/-- Counterexample for claim C2: loading `".S"` puts the spawn point at the
tile's top-left corner `(32, 0)`, not at its center `(1*32+16, 0*32+16)` as
the claim states. -/
theorem C2_spawn_center_counterexample :
    (Level.from_string ".S" Perspective.TopDown).map Level.spawn_point
      = some (((1 : Nat) : ℚ) * 32, ((0 : Nat) : ℚ) * 32) ∧
    (Level.from_string ".S" Perspective.TopDown).map Level.spawn_point
      ≠ some ((1 : ℚ) * 32 + 16, (0 : ℚ) * 32 + 16) := by
  have hlv : (Level.from_string ".S" Perspective.TopDown).map Level.spawn_point
      = some (((1 : Nat) : ℚ) * 32, ((0 : Nat) : ℚ) * 32) := rfl
  refine ⟨hlv, ?_⟩
  rw [hlv]
  intro h
  have h2 := Option.some.inj h
  have hx : ((1 : Nat) : ℚ) * 32 = (1 : ℚ) * 32 + 16 := congrArg Prod.fst h2
  norm_num at hx

/-- Claim C2 as amended: the last `'S'` cell of the scan (here: an `'S'` at
row `r`, column `c` with no later `'S'` and no later write to that cell) sets
`spawn_point` to the tile's top-left corner `(c*32, r*32)` in world units —
not its center — and leaves the tile itself `Empty`. -/
theorem C2_spawn_top_left (s : String) (p : Perspective) (l0 : List Char)
    (rest : List (List Char)) (r c : Nat) (pre post : List (Nat × Nat × Char))
    (hlines : Level.rustLines (Level.rustTrim s.toList) = l0 :: rest)
    (hcells : cellsOf (l0 :: rest) = pre ++ (r, c, 'S') :: post)
    (hpostS : ∀ t ∈ post, t.2.2 ≠ 'S')
    (hpostC : ∀ t ∈ post, (t.2.1, t.1) ≠ (c, r))
    (hc : c < l0.length) (hr : r < (l0 :: rest).length) :
    ∃ lv : Level, Level.from_string s p = some lv ∧
      lv.spawn_point = ((c : ℚ) * 32, (r : ℚ) * 32) ∧
      lv.get_tile c r = some TileType.Empty := by
  refine ⟨Level.from_lines (l0 :: rest) l0.length (l0 :: rest).length p, ?_, ?_, ?_⟩
  · simp only [Level.from_string, hlines]
  · rw [from_lines_eq_cells, hcells, List.foldl_append, List.foldl_cons]
    rw [fold_cellStep_spawn_no_S post hpostS]
    rw [show cellStep (pre.foldl cellStep (Level.new l0.length (l0 :: rest).length p))
          (r, c, 'S')
        = ((pre.foldl cellStep (Level.new l0.length (l0 :: rest).length p)).set_spawn_point
            ((c : ℚ) * 32) ((r : ℚ) * 32)).set_tile c r TileType.Empty from rfl]
    rw [set_tile_spawn]
    rfl
  · rw [from_lines_eq_cells, hcells, List.foldl_append, List.foldl_cons]
    rw [fold_cellStep_get_tile_ne post c r hpostC]
    rw [show cellStep (pre.foldl cellStep (Level.new l0.length (l0 :: rest).length p))
          (r, c, 'S')
        = ((pre.foldl cellStep (Level.new l0.length (l0 :: rest).length p)).set_spawn_point
            ((c : ℚ) * 32) ((r : ℚ) * 32)).set_tile c r TileType.Empty from rfl]
    apply get_tile_set_tile_self
    · show c < (pre.foldl cellStep (Level.new l0.length (l0 :: rest).length p)).width
      rw [fold_cellStep_width]
      exact hc
    · show r < (pre.foldl cellStep (Level.new l0.length (l0 :: rest).length p)).height
      rw [fold_cellStep_height]
      exact hr
    · show (pre.foldl cellStep (Level.new l0.length (l0 :: rest).length p)).tiles.length
        = (pre.foldl cellStep (Level.new l0.length (l0 :: rest).length p)).width
          * (pre.foldl cellStep (Level.new l0.length (l0 :: rest).length p)).height
      rw [fold_cellStep_tiles_length, fold_cellStep_width, fold_cellStep_height]
      simp [Level.new]

/-- Witness for the amended C2 on the concrete input `".S"`. -/
theorem C2_spawn_top_left_witness :
    ∃ lv : Level, Level.from_string ".S" Perspective.TopDown = some lv ∧
      lv.spawn_point = (((1 : Nat) : ℚ) * 32, ((0 : Nat) : ℚ) * 32) ∧
      lv.get_tile 1 0 = some TileType.Empty := by
  apply C2_spawn_top_left ".S" Perspective.TopDown ['.', 'S'] [] 0 1 [(0, 0, '.')] []
  · decide
  · decide
  · simp
  · simp
  · decide
  · decide

/-- Counterexample for claim C3: rows of unequal length are not rejected and
no `InvalidLevelData` error exists — `from_string "#\n##"` succeeds, taking
the width from the first row and silently dropping the second row's extra
tile; empty input does not produce an error either, it panics (modelled as
`none`). -/
theorem C3_invalid_level_counterexample :
    Level.from_string "#\n##" Perspective.SideScrolling
      = some { width := 1
               height := 2
               tiles := [TileType.Platform, TileType.Platform]
               perspective := Perspective.SideScrolling
               spawn_point := (0, 0)
               evidence_locations := [] } ∧
    Level.from_string "" Perspective.SideScrolling = none :=
  ⟨rfl, rfl⟩

/-- Claim C3 as amended: `from_string` performs no validation and has no
error value.  Empty input panics (indexing `lines[0]`, modelled `none`); any
nonempty input yields a grid whose width is the first row's length and whose
height is the row count, and every cell beyond the first row's width is
silently dropped (out-of-range lookups are `none`).  There is no
`InvalidLevelData` error kind anywhere. -/
theorem C3_no_validation (s : String) (p : Perspective) :
    (Level.rustLines (Level.rustTrim s.toList) = [] → Level.from_string s p = none) ∧
    (∀ (l0 : List Char) (rest : List (List Char)),
      Level.rustLines (Level.rustTrim s.toList) = l0 :: rest →
      ∃ lv : Level, Level.from_string s p = some lv ∧
        lv.width = l0.length ∧ lv.height = (l0 :: rest).length ∧
        ∀ x y : Nat, l0.length ≤ x → lv.get_tile x y = none) := by
  constructor
  · intro h
    simp only [Level.from_string, h]
  · intro l0 rest h
    refine ⟨Level.from_lines (l0 :: rest) l0.length (l0 :: rest).length p, ?_, ?_, ?_, ?_⟩
    · simp only [Level.from_string, h]
    · exact from_lines_width _ _ _ _
    · exact from_lines_height _ _ _ _
    · intro x y hx
      apply get_tile_none_of_out
      left
      rw [from_lines_width]
      exact hx

/-- Witness for the amended C3 on the empty input and on `"#\n##"`. -/
theorem C3_no_validation_witness :
    Level.from_string "" Perspective.SideScrolling = none ∧
    ∃ lv : Level, Level.from_string "#\n##" Perspective.SideScrolling = some lv ∧
      lv.width = 1 ∧ lv.height = 2 ∧
      ∀ x y : Nat, 1 ≤ x → lv.get_tile x y = none := by
  constructor
  · exact (C3_no_validation "" Perspective.SideScrolling).1 (by decide)
  · exact (C3_no_validation "#\n##" Perspective.SideScrolling).2
      ['#'] [['#', '#']] (by decide)

theorem set_tile_evidence_locations (lv : Level) (x y : Nat) (t : TileType) :
    (lv.set_tile x y t).evidence_locations = lv.evidence_locations := by
  unfold Level.set_tile; split <;> rfl

/-- Counterexample for claim C4: the grid reached by
`(Level.new 2 2 _).add_evidence 5 5` stores the out-of-range coordinate
`(5, 5)` in `evidence_locations` even though it lies outside
`[0,2)×[0,2)` and holds no tile at all. -/
theorem C4_evidence_invariant_counterexample :
    lvC4.evidence_locations = [(5, 5)] ∧ ¬(5 < lvC4.width) ∧
    lvC4.get_tile 5 5 = none := by decide

/-- Claim C4 as amended: out-of-range lookups do return an absent result, and
in-range `add_evidence` does make the tile `Evidence`, but `add_evidence`
records the coordinate unconditionally, so grids reachable through the public
operations may store out-of-range coordinates (or coordinates later
overwritten by `set_tile`) in `evidence_locations`. -/
theorem C4_evidence_weak_invariant (lv : Level) (x y : Nat) :
    (lv.width ≤ x ∨ lv.height ≤ y → lv.get_tile x y = none) ∧
    ((lv.add_evidence x y).evidence_locations = lv.evidence_locations ++ [(x, y)]) ∧
    (x < lv.width → y < lv.height → lv.tiles.length = lv.width * lv.height →
      (lv.add_evidence x y).get_tile x y = some TileType.Evidence) := by
  refine ⟨get_tile_none_of_out lv x y, ?_, ?_⟩
  · unfold Level.add_evidence
    rw [set_tile_evidence_locations]
  · intro h1 h2 h3
    exact get_tile_add_evidence_self lv x y h1 h2 h3

/-- Witness for the amended C4 on concrete 2 by 2 grids. -/
theorem C4_evidence_weak_invariant_witness :
    ((Level.new 2 2 Perspective.SideScrolling).add_evidence 1 1).get_tile 1 1
      = some TileType.Evidence ∧
    ((Level.new 2 2 Perspective.SideScrolling).add_evidence 5 5).evidence_locations
      = (Level.new 2 2 Perspective.SideScrolling).evidence_locations ++ [(5, 5)] ∧
    (Level.new 2 2 Perspective.SideScrolling).get_tile 5 5 = none :=
  ⟨(C4_evidence_weak_invariant (Level.new 2 2 Perspective.SideScrolling) 1 1).2.2
      (by decide) (by decide) (by decide),
   (C4_evidence_weak_invariant (Level.new 2 2 Perspective.SideScrolling) 5 5).2.1,
   (C4_evidence_weak_invariant (Level.new 2 2 Perspective.SideScrolling) 5 5).1
      (by decide)⟩

/-- Counterexample for claim C5: an upward (ceiling) contact does not clear
`is_jumping`.  In `lvC5` the actor moving up (velocity -100) is snapped below
the wall tile (y becomes 56, from 40) and its vertical velocity is zeroed — a
vertical contact — yet `is_jumping` remains `true`. -/
theorem C5_ceiling_keeps_jump_counterexample :
    (Player.collideY lvC5 pC5).1.velocity_y = 0 ∧
    (Player.collideY lvC5 pC5).1.y = 56 ∧
    pC5.y = 40 ∧
    (Player.collideY lvC5 pC5).1.is_jumping = true := by
  refine ⟨?_, ?_, rfl, ?_⟩ <;>
    norm_num [lvC5, pC5, Player.collideY, Player.footprintCells,
      Player.cellsBetween, Player.tileIndex, Player.collideYCell,
      Level.get_tile, Level.new, Level.set_tile,
      TILE_SIZE, Player.new, List.range', List.foldl, List.flatMap, Int.toNat_ofNat]

/-- Claim C5 as amended: the vertical pass resets `is_grounded` to false
before scanning (in particular it ends false whenever the entry vertical
velocity is non-positive, or no scanned cell holds a solid tile), sets it
true only on a downward contact (grounded implies positive entry velocity),
and clears `is_jumping` only on a downward contact — an upward (ceiling)
contact leaves `is_jumping` unchanged. -/
theorem C5_vertical_pass (lv : Level) (p : Player) :
    (p.velocity_y ≤ 0 → (Player.collideY lv p).1.is_grounded = false) ∧
    ((∀ c ∈ Player.footprintCells p, ∀ t, lv.get_tile c.1 c.2 = some t →
        t ≠ TileType.Platform ∧ t ≠ TileType.Wall) →
      (Player.collideY lv p).1.is_grounded = false) ∧
    ((Player.collideY lv p).1.is_grounded = true → 0 < p.velocity_y) ∧
    (p.velocity_y < 0 → (Player.collideY lv p).1.is_jumping = p.is_jumping) ∧
    ((Player.collideY lv p).1.is_grounded = true →
      (Player.collideY lv p).1.is_jumping = false) := by
  refine ⟨?_, ?_, ?_, ?_, ?_⟩
  · intro h
    exact (collideY_nonpos lv p h).1
  · intro h
    rw [collideY_no_solid_in_footprint lv p h]
  · intro h
    exact ((collideY_inv lv p).2.2.2.2.2 h).2.2.2.1
  · intro h
    exact (collideY_nonpos lv p (le_of_lt h)).2
  · intro h
    exact ((collideY_inv lv p).2.2.2.2.2 h).2.2.1

/-- Witness for the amended C5: a still actor (velocity 0) ends the pass not
grounded, and the concrete ceiling bump preserves `is_jumping`. -/
theorem C5_vertical_pass_witness :
    (Player.collideY lvC6 pC6).1.is_grounded = false ∧
    (Player.collideY lvC5 pC5).1.is_jumping = pC5.is_jumping :=
  ⟨(C5_vertical_pass lvC6 pC6).1 (by norm_num [pC6, Player.new]),
   (C5_vertical_pass lvC5 pC5).2.2.2.1 (by norm_num [pC5, Player.new])⟩

/-- Counterexample for claim C6: after one side-scrolling step from a resting
state exactly on the lower world boundary (y = 2*32 - 48/2 = 40, zero
velocity, no input, all tiles empty), the actor is still exactly at the lower
boundary, no downward contact was found, and yet `is_grounded` is `false` —
the "only if" direction of the claimed equivalence fails. -/
theorem C6_grounded_iff_counterexample :
    (Player.update (fun _ => 0) (1 / 10) lvC6 pC6).y = 40 ∧
    ((lvC6.height : ℚ) * TILE_SIZE
      - (Player.update (fun _ => 0) (1 / 10) lvC6 pC6).height / 2 = 40) ∧
    (Player.update (fun _ => 0) (1 / 10) lvC6 pC6).is_grounded = false := by
  refine ⟨?_, ?_, ?_⟩ <;>
    norm_num [lvC6, pC6, Player.update, Player.update_side_scrolling, Player.applyFriction,
      Player.handle_collisions, Player.collideX, Player.collideY, Player.footprintCells,
      Player.cellsBetween, Player.tileIndex, Player.collideXCell, Player.collideYCell,
      Player.clampX, Player.clampY, Player.animate,
      Player.check_evidence_collection, Player.collectCell, Level.get_tile, Level.new,
      TILE_SIZE, GRAVITY, FRICTION, ACCELERATION, MAX_VELOCITY, Player.new,
      List.range', List.foldl, List.flatMap, Int.toNat_ofNat]

/-- Claim C6 as amended: after any simulation step (either perspective), if
`is_grounded` is true then `velocity_y` is 0 and the actor stands either at
the lower world boundary, at the upper boundary (a downward snap pushed back
below the top edge), or on the top face of some solid tile (the downward
contact found by the vertical pass).  The converse of the claimed
equivalence does not hold (see the counterexample). -/
theorem C6_grounded_only_if (sq : ℚ → ℚ) (dt : ℚ) (lv : Level) (p : Player)
    (h : (Player.update sq dt lv p).is_grounded = true) :
    (Player.update sq dt lv p).velocity_y = 0 ∧
    ((Player.update sq dt lv p).y = (lv.height : ℚ) * TILE_SIZE - p.height / 2 ∨
     (Player.update sq dt lv p).y = p.height / 2 ∨
     ∃ tx ty : Nat,
       (lv.get_tile tx ty = some TileType.Platform ∨
         lv.get_tile tx ty = some TileType.Wall) ∧
       (Player.update sq dt lv p).y = (ty : ℚ) * TILE_SIZE - p.height / 2) := by
  obtain ⟨q, hupd, hqh, hqw⟩ := update_eq_hc sq dt lv p
  rw [hupd] at h ⊢
  obtain ⟨_, hcy, _, hcvy, hcgr, _, _, _⟩ :=
    check_ev_pres lv (Player.animate dt (Player.handle_collisions lv q p.x p.y))
  obtain ⟨_, hay, _, havy, hagr, _, _, _, _⟩ :=
    animate_pres dt (Player.handle_collisions lv q p.x p.y)
  rw [hcgr, hagr] at h
  obtain ⟨hhh, hmain⟩ := handle_collisions_grounded lv q p.x p.y
  obtain ⟨hvy0, hdisj⟩ := hmain h
  rw [hqh] at hdisj
  constructor
  · rw [hcvy, havy, hvy0]
  · rw [hcy, hay]
    exact hdisj

/-- Witness for the amended C6: falling onto the platform of `lvC6w` ends the
step grounded, and the theorem then locates the actor on a solid tile's top
face with zero vertical velocity. -/
theorem C6_grounded_only_if_witness :
    (Player.update (fun _ => 0) (1 / 100) lvC6w pC6w).velocity_y = 0 ∧
    ((Player.update (fun _ => 0) (1 / 100) lvC6w pC6w).y
        = (lvC6w.height : ℚ) * TILE_SIZE - pC6w.height / 2 ∨
     (Player.update (fun _ => 0) (1 / 100) lvC6w pC6w).y = pC6w.height / 2 ∨
     ∃ tx ty : Nat,
       (lvC6w.get_tile tx ty = some TileType.Platform ∨
         lvC6w.get_tile tx ty = some TileType.Wall) ∧
       (Player.update (fun _ => 0) (1 / 100) lvC6w pC6w).y
         = (ty : ℚ) * TILE_SIZE - pC6w.height / 2) := by
  apply C6_grounded_only_if
  have hlv : lvC6w = { width := 1
                       height := 3
                       tiles := [TileType.Empty, TileType.Empty, TileType.Platform]
                       perspective := Perspective.SideScrolling
                       spawn_point := (0, 0)
                       evidence_locations := [] } := by decide
  rw [hlv]
  set_option maxHeartbeats 1000000 in
  norm_num [pC6w, Player.update, Player.update_side_scrolling, Player.applyFriction,
    Player.handle_collisions, Player.collideX, Player.collideY, Player.footprintCells,
    Player.cellsBetween, Player.tileIndex, Player.collideXCell, Player.collideYCell,
    Player.clampX, Player.clampY, Player.animate,
    Player.check_evidence_collection, Player.collectCell, Level.get_tile,
    TILE_SIZE, GRAVITY, FRICTION, ACCELERATION, MAX_VELOCITY, Player.new,
    List.range', List.foldl, List.flatMap, Int.toNat_ofNat]

set_option maxHeartbeats 1600000 in
/-- Counterexample for claim C1: one top-down update step with right intent
held, over an all-empty 4 by 4 grid, from position (64, 64) with `dt = 1/10`,
leaves `x` at 64 — it does not displace the actor by `dx*dt = 50` (the
boundary clamp is not involved: both 64 and 114 lie within [12, 116]). -/
theorem C1_topdown_displacement_counterexample :
    (Player.update (fun _ => 0) (1 / 10) lvC1 pC1).x = 64 ∧
    (Player.update (fun _ => 0) (1 / 10) lvC1 pC1).y = 64 ∧
    (64 : ℚ) ≠ 64 + MAX_VELOCITY * (1 / 10) := by
  refine ⟨?_, ?_, by norm_num [MAX_VELOCITY]⟩ <;>
    norm_num [lvC1, pC1, Player.update, Player.update_top_down,
      Player.handle_collisions, Player.collideX, Player.collideY, Player.footprintCells,
      Player.cellsBetween, Player.tileIndex, Player.collideXCell, Player.collideYCell,
      Player.clampX, Player.clampY, Player.animate,
      Player.check_evidence_collection, Player.collectCell, Level.get_tile, Level.new,
      TILE_SIZE, MAX_VELOCITY, Player.new, Int.toNat,
      List.range', List.foldl, List.flatMap, Int.toNat_ofNat, List.getElem?_replicate]

/-- Claim C1 as amended: in top-down mode, one update step with no solid tile
anywhere in the level and an in-bounds position leaves the position exactly
unchanged — absence of contact triggers a full revert of both axes, so the
actor cannot walk onto a trigger tile; velocity fields are indeed not
persisted (they are never written in this mode). -/
theorem C1_topdown_no_move (sq : ℚ → ℚ) (dt : ℚ) (lv : Level) (p : Player)
    (hper : lv.perspective = Perspective.TopDown)
    (hsol : ∀ t ∈ lv.tiles, t ≠ TileType.Platform ∧ t ≠ TileType.Wall)
    (hx1 : p.width / 2 ≤ p.x) (hx2 : p.x ≤ (lv.width : ℚ) * TILE_SIZE - p.width / 2)
    (hy1 : p.height / 2 ≤ p.y) (hy2 : p.y ≤ (lv.height : ℚ) * TILE_SIZE - p.height / 2) :
    (Player.update sq dt lv p).x = p.x ∧ (Player.update sq dt lv p).y = p.y ∧
    (Player.update sq dt lv p).velocity_x = p.velocity_x ∧
    (Player.update sq dt lv p).velocity_y = p.velocity_y := by
  unfold Player.update
  simp only [hper]
  obtain ⟨q, heq, hqh, hqw, hqvx, hqvy⟩ := update_top_down_eq sq dt lv p
  rw [heq]
  rw [handle_collisions_no_solid lv q p.x p.y hsol
    (by rw [hqw]; exact hx1) (by rw [hqw]; exact hx2)
    (by rw [hqh]; exact hy1) (by rw [hqh]; exact hy2)]
  obtain ⟨hcx, hcy, hcvx, hcvy, _, _, _, _⟩ :=
    check_ev_pres lv (Player.animate dt { q with x := p.x, y := p.y, is_grounded := false })
  obtain ⟨hax, hay, havx, havy, _, _, _, _, _⟩ :=
    animate_pres dt ({ q with x := p.x, y := p.y, is_grounded := false })
  refine ⟨?_, ?_, ?_, ?_⟩
  · rw [hcx, hax]
  · rw [hcy, hay]
  · rw [hcvx, havx]
    exact hqvx
  · rw [hcvy, havy]
    exact hqvy

/-- Witness for the amended C1 on the all-empty 4 by 4 top-down grid. -/
theorem C1_topdown_no_move_witness :
    (Player.update (fun _ => 0) (1 / 10) lvC1 pC1).x = pC1.x ∧
    (Player.update (fun _ => 0) (1 / 10) lvC1 pC1).y = pC1.y ∧
    (Player.update (fun _ => 0) (1 / 10) lvC1 pC1).velocity_x = pC1.velocity_x ∧
    (Player.update (fun _ => 0) (1 / 10) lvC1 pC1).velocity_y = pC1.velocity_y :=
  C1_topdown_no_move (fun _ => 0) (1 / 10) lvC1 pC1 rfl (by decide)
    (by norm_num [pC1, lvC1, Player.new, Level.new, TILE_SIZE])
    (by norm_num [pC1, lvC1, Player.new, Level.new, TILE_SIZE])
    (by norm_num [pC1, lvC1, Player.new, Level.new, TILE_SIZE])
    (by norm_num [pC1, lvC1, Player.new, Level.new, TILE_SIZE])
